import Mathlib

/-!
Verification of the request-configuration and response-streaming pipeline of a
single-file chat client (`src/index.tsx`).  The definitions below are a shallow
embedding of the decision logic of that file: the intent classifier (`INTENTS`),
the request configurator (`determineConfig`), the contextual action suggester
(`getContextualActions`), the grounding-source renderer
(`renderGroundingSources`) and the send flow (`handleSend`).  Globals read by
those functions (`isDevMode`, `devConfig`, `currentMedia`,
`lastResponseContent`, `localHistory`) are passed as explicit arguments.
-/

/- ### String helpers

JavaScript `String.prototype.includes` and the regex tests of `INTENTS` are
alternations of literal substrings, so we model them with an executable
substring check over character lists. -/

/-- `charsStart sub l` is true when `sub` is an initial segment of `l`. -/
def charsStart : List Char → List Char → Bool
  | [], _ => true
  | _ :: _, [] => false
  | a :: as, b :: bs => a == b && charsStart as bs

/-- `charsHave sub l` is true when `sub` occurs contiguously somewhere in `l`. -/
def charsHave (sub : List Char) : List Char → Bool
  | [] => charsStart sub []
  | c :: rest => charsStart sub (c :: rest) || charsHave sub rest

/-- JavaScript `s.includes(needle)`: case-sensitive substring test. -/
def jsIncludes (s needle : String) : Bool :=
  charsHave needle.toList s.toList

/-- A case-insensitive regex of the form `/k1|k2|.../i` applied with `.test`:
true when any keyword (given lowercase) occurs in the lowercased text. -/
def testAnyCI (keywords : List String) (text : String) : Bool :=
  keywords.any fun k => charsHave k.toList (text.toList.map Char.toLower)

/-- JavaScript `s.startsWith(needle)`. -/
def jsStartsWith (s needle : String) : Bool :=
  charsStart needle.toList s.toList

/-- JavaScript `s.trim()`: whitespace stripped from both ends. -/
def jsTrim (s : String) : String :=
  ⟨((s.toList.dropWhile Char.isWhitespace).reverse.dropWhile Char.isWhitespace).reverse⟩

/- ### Intent classifier (`INTENTS`, src/index.tsx lines 84-87) -/

/-- `INTENTS.SEARCH.test(text)`:
`/search|find|latest|news|google|weather|price|stock/i`. -/
def searchIntent (text : String) : Bool :=
  testAnyCI ["search", "find", "latest", "news", "google", "weather", "price", "stock"] text

/-- `INTENTS.THINK.test(text)`:
`/think|reason|plan|complex|solve|math|optimize|architect|code/i`. -/
def thinkIntent (text : String) : Bool :=
  testAnyCI ["think", "reason", "plan", "complex", "solve", "math", "optimize", "architect", "code"] text

/- ### Data model -/

/-- The staged media attachment (`currentMedia` global): base64 payload and MIME
type. -/
structure Media where
  data : String
  mimeType : String
deriving DecidableEq

/-- `currentMedia?.mimeType.startsWith('video')` — `undefined` (hence falsy)
when no media is staged. -/
def mediaIsVideo : Option Media → Bool
  | some m => jsStartsWith m.mimeType "video"
  | none => false

/-- `currentMedia?.mimeType.startsWith('image')` used by the action suggester. -/
def mediaIsImage : Option Media → Bool
  | some m => jsStartsWith m.mimeType "image"
  | none => false

/-- The three tool switches of the developer configuration. -/
structure ToolSwitches where
  googleSearch : Bool
  googleMaps : Bool
  thinking : Bool
deriving DecidableEq

/-- The developer configuration record (`devConfig` global, lines 38-51).
`temperature` and `topP` are JS numbers that are only ever copied, never
computed with; we model them as rationals. -/
structure DevConfig where
  systemInstruction : String
  temperature : Rat
  topP : Rat
  maxOutputTokens : Nat
  model : String
  safetyThreshold : String
  tools : ToolSwitches
  forceTools : Bool
deriving DecidableEq

/-- The default developer configuration literal of lines 38-51. -/
def defaultDevConfig : DevConfig :=
  { systemInstruction := ""
    temperature := 1
    topP := 95 / 100
    maxOutputTokens := 2048
    model := "gemini-2.5-flash-lite"
    safetyThreshold := "BLOCK_MEDIUM_AND_ABOVE"
    tools := { googleSearch := false, googleMaps := false, thinking := false }
    forceTools := false }

/-- A tool attached to the request (`{googleSearch: {}}` / `{googleMaps: {}}`). -/
inductive Tool where
  | googleSearch
  | googleMaps
deriving DecidableEq

/-- `config.thinkingConfig = { thinkingBudget: 32768 }`. -/
structure ThinkingConfig where
  thinkingBudget : Nat
deriving DecidableEq

/-- One entry of `config.safetySettings`. -/
structure SafetySetting where
  category : String
  threshold : String
deriving DecidableEq

/-- The generation config object built by `determineConfig`; it starts as `{}`
and fields are added conditionally, so every field is an `Option` defaulting to
`none` (the absent field). -/
structure GenConfig where
  thinkingConfig : Option ThinkingConfig := none
  tools : Option (List Tool) := none
  systemInstruction : Option String := none
  temperature : Option Rat := none
  topP : Option Rat := none
  maxOutputTokens : Option Nat := none
  safetySettings : Option (List SafetySetting) := none
deriving DecidableEq

/-- The Request Descriptor returned by `determineConfig`:
`{ model, config, modeLabel, visualState }`. -/
structure RequestDescriptor where
  model : String
  config : GenConfig
  modeLabel : String
  visualState : String
deriving DecidableEq

/-- The four harm categories of lines 139-144. -/
def harmCategories : List String :=
  ["HARM_CATEGORY_HARASSMENT",
   "HARM_CATEGORY_HATE_SPEECH",
   "HARM_CATEGORY_SEXUALLY_EXPLICIT",
   "HARM_CATEGORY_DANGEROUS_CONTENT"]

/- ### Request configurator (`determineConfig`, lines 89-154)

The source function reads the globals `isDevMode`, `devConfig` and
`currentMedia`; they are explicit arguments here.  We split it into its two
sections: the model/tool branch (section 1) and the developer-mode overrides
(section 2). -/

/-- Section 1 of `determineConfig` (lines 90-122): tool precedence and the
model/label/visual-state branch. -/
def baseDescriptor (text : String) (hasMedia : Bool) (isDevMode : Bool)
    (devConfig : DevConfig) (currentMedia : Option Media) : RequestDescriptor :=
  let useSearch := if isDevMode && devConfig.forceTools then devConfig.tools.googleSearch
                   else searchIntent text
  let useThinking := if isDevMode && devConfig.forceTools then devConfig.tools.thinking
                     else thinkIntent text
  let useMaps := if isDevMode && devConfig.forceTools then devConfig.tools.googleMaps
                 else false
  if hasMedia then
    { model := "gemini-3-pro-preview"
      config := {}
      modeLabel := if mediaIsVideo currentMedia then "Video Intelligence" else "Visual Analysis"
      visualState := "glow-vision" }
  else if useThinking then
    { model := "gemini-3-pro-preview"
      config := { thinkingConfig := some { thinkingBudget := 32768 } }
      modeLabel := "Deep Thinking"
      visualState := "glow-think" }
  else if useSearch || useMaps then
    { model := "gemini-3-flash-preview"
      config := { tools := some ((if useSearch then [Tool.googleSearch] else [])
                                  ++ (if useMaps then [Tool.googleMaps] else [])) }
      modeLabel := if useSearch then "Google Search" else "Google Maps"
      visualState := if useSearch then "glow-search" else "glow-maps" }
  else if isDevMode then
    { model := devConfig.model
      config := {}
      modeLabel := if devConfig.model == "gemini-3-pro-preview" then "Gemini Pro"
                   else if jsIncludes devConfig.model "lite" then "Gemini Lite"
                   else "Gemini Custom"
      visualState := "glow-active" }
  else
    { model := "gemini-2.5-flash-lite"
      config := {}
      modeLabel := "Gemini Flash Lite"
      visualState := "glow-active" }

/-- Section 2 of `determineConfig` (lines 124-151): the developer-mode
overrides.  The source mutates `config` field by field, each field exactly
once, so the sequence of assignments is rendered as a single record update:
`systemInstruction` only when the trimmed instruction is non-empty,
`temperature` and `topP` unconditionally, `maxOutputTokens` only when
`config.thinkingConfig` is unset (the feature constraint of line 133), and
`safetySettings` mapped over the four harm categories with the single
configured threshold. -/
def applyDevOverrides (isDevMode : Bool) (devConfig : DevConfig)
    (r : RequestDescriptor) : RequestDescriptor :=
  if isDevMode then
    { r with
      config :=
        { r.config with
          systemInstruction :=
            if jsTrim devConfig.systemInstruction == "" then r.config.systemInstruction
            else some devConfig.systemInstruction
          temperature := some devConfig.temperature
          topP := some devConfig.topP
          maxOutputTokens :=
            if r.config.thinkingConfig = none then some devConfig.maxOutputTokens
            else r.config.maxOutputTokens
          safetySettings :=
            some (harmCategories.map fun cat =>
              { category := cat, threshold := devConfig.safetyThreshold }) }
      modeLabel := r.modeLabel ++ " (Dev)" }
  else r

/-- `determineConfig(text, hasMedia)` with its global reads made explicit. -/
def determineConfig (text : String) (hasMedia : Bool) (isDevMode : Bool)
    (devConfig : DevConfig) (currentMedia : Option Media) : RequestDescriptor :=
  applyDevOverrides isDevMode devConfig
    (baseDescriptor text hasMedia isDevMode devConfig currentMedia)

/- ### Contextual action suggester (`getContextualActions`, lines 157-207) -/

/-- The role of a conversation turn: `'user' | 'model'`. -/
inductive Role where
  | user
  | model
deriving DecidableEq

instance : BEq Role := ⟨fun a b => decide (a = b)⟩

/-- One suggested follow-up action: `{ label, prompt, icon }`. -/
structure QuickAction where
  label : String
  prompt : String
  icon : String
deriving DecidableEq

/-- `getContextualActions(text, hasMedia, lastMsgRole)` with the globals
`currentMedia` and `lastResponseContent` made explicit.  `lastMsgRole` is
`undefined` (`none`) when the conversation is empty.  The media and
non-empty-text branches return early without a slice; the final branch returns
`actions.slice(0, 4)`. -/
def getContextualActions (text : String) (hasMedia : Bool)
    (lastMsgRole : Option Role) (currentMedia : Option Media)
    (lastResponseContent : String) : List QuickAction :=
  if hasMedia then
    [{ label := "Describe", prompt := "Describe this in detail.", icon := "visibility" }]
    ++ (if mediaIsImage currentMedia then
          [{ label := "Extract Text", prompt := "Extract all text from this image.", icon := "text_fields" }]
        else [])
    ++ [{ label := "Analyze", prompt := "Analyze the key elements.", icon := "analytics" }]
  else if 0 < text.length then
    let actions :=
      if jsIncludes text "code" || jsIncludes text "function" || jsIncludes text "const " then
        [{ label := "Fix Bugs", prompt := "Find and fix bugs in this code.", icon := "bug_report" },
         { label := "Explain", prompt := "Explain this code step by step.", icon := "description" }]
      else if searchIntent text then
        [{ label := "Deep Dive", prompt := "Give me a detailed deep dive on this.", icon := "scuba_diving" },
         { label := "Fact Check", prompt := "Verify this information.", icon := "fact_check" }]
      else if thinkIntent text then
        [{ label := "Break Down", prompt := "Break this problem down step-by-step.", icon := "segment" }]
      else []
    if actions.isEmpty then
      [{ label := "Improve", prompt := "Improve this writing.", icon := "edit_note" },
       { label := "Creative Twist", prompt := "Add a creative twist.", icon := "auto_awesome" },
       { label := "Expand", prompt := "Expand on this idea.", icon := "open_in_full" }]
    else actions
  else
    let actions :=
      if lastMsgRole == some Role.model && lastResponseContent != "" then
        (if jsIncludes lastResponseContent "```" then
           [{ label := "Refactor", prompt := "Refactor this code for better performance.", icon := "build" },
            { label := "Add Comments", prompt := "Add detailed comments to the code.", icon := "comment" }]
         else if 500 < lastResponseContent.length then
           [{ label := "Summarize", prompt := "Summarize the above in 3 bullet points.", icon := "short_text" }]
         else [])
        ++ [{ label := "Verify", prompt := "Are you sure? Verify this information.", icon := "check_circle" }]
      else []
    let final :=
      if actions.isEmpty then
        [{ label := "Brainstorm", prompt := "Help me brainstorm creative ideas.", icon := "lightbulb" },
         { label := "Plan", prompt := "Help me create a structured plan.", icon := "calendar_today" }]
      else actions
    final.take 4

/-- Whether a suggestion with the given label is in the list. -/
def hasAction (label : String) (as : List QuickAction) : Bool :=
  as.any fun a => a.label == label

/- ### Grounding extractor (`renderGroundingSources`, lines 716-744) -/

/-- A web or maps source payload as consumed by the renderer.  The renderer
reads `uri`, `title` and `maps` off the extracted payload object; the payload
carries `uri` and an optional `title` but no `maps` key, so the property read
`s.maps` yields `undefined` there. -/
structure Source where
  uri : String
  title : Option String
deriving DecidableEq

/-- One entry of `metadata.groundingChunks`: it may carry a `web` payload, a
`maps` payload, neither, or both. -/
structure GroundingChunk where
  web : Option Source := none
  maps : Option Source := none
deriving DecidableEq

/-- One rendered source card: the link target, the material icon name and the
displayed title. -/
structure SourceCard where
  uri : String
  icon : String
  title : String
deriving DecidableEq

/-- Rendering of one card (lines 732-742).  The icon is
`s.maps ? 'place' : 'public'`, but `s` is the extracted `c.web` / `c.maps`
payload, which has no `maps` property, so the read is `undefined` and the
ternary always yields `'public'`; the title falls back to the uri
(`s.title || s.uri`). -/
def renderCard (s : Source) : SourceCard :=
  { uri := s.uri
    icon := "public"
    title := s.title.getD s.uri }

/-- Lines 727-732: `chunks.filter(c => c.web).map(c => c.web)` (and likewise
for `maps`), then one card per element of `[...webSources, ...mapSources]`. -/
def extractCards (chunks : List GroundingChunk) : List SourceCard :=
  let webSources := (chunks.filter fun c => c.web.isSome).filterMap GroundingChunk.web
  let mapSources := (chunks.filter fun c => c.maps.isSome).filterMap GroundingChunk.maps
  (webSources ++ mapSources).map renderCard

/-- `renderGroundingSources(metadata, container)` modelled on the state of the
sources grid inside the message container: `none` when no sources container
exists yet.  The function creates the container if absent, then sets
`grid.innerHTML = ''` (discarding the previous cards) and appends one card per
extracted source. -/
def renderGroundingSources (metadata : List GroundingChunk)
    (_previousGrid : Option (List SourceCard)) : Option (List SourceCard) :=
  let gridCleared : List SourceCard := []
  some (gridCleared ++ extractCards metadata)

/- ### Send flow (`handleSend`, lines 620-714)

`handleSend` is an async function whose interaction with the backend we model
with an explicit stream outcome: either the stream yields its fragments and
ends normally, or it throws after yielding a prefix of them (covering both
submission and mid-stream failures).  Its externally visible store effects and
backend calls are recorded as an event trace. -/

/-- One content fragment of a message (the `Part` type of the source): inline media or text.  A user
message pushes at most one of each; a model message has a single text part. -/
inductive MsgPart where
  | inlineData (data : String) (mimeType : String)
  | text (t : String)
deriving DecidableEq

/-- One conversation turn (`Message`).  The optional `metadata` field of the
source type is never written by the program and is omitted. -/
structure Message where
  role : Role
  parts : List MsgPart
  timestamp : Nat
  mode : Option String := none
deriving DecidableEq

/-- Outcome of `chat.sendMessageStream` and the fragment loop: `ok` when every
chunk arrives and the stream ends, `err` when an exception is thrown after the
given prefix of chunks (empty for a submission failure). -/
inductive StreamOutcome where
  | ok (chunks : List String)
  | err (chunks : List String) (message : String)
deriving DecidableEq

/-- An externally visible step of `handleSend`.  `savedUser`/`savedModel` are
`saveMessage` calls: an append to `localHistory` write-through persisted to
storage.  `backendCall` is the single `ai.chats.create` +
`chat.sendMessageStream` submission, carrying the model, the mapped history
(`localHistory.map(m => ({role, parts}))`) and the generation config.
`displayedError` is the catch branch replacing the status indicator. -/
inductive SendEvent where
  | savedUser (m : Message)
  | backendCall (model : String) (history : List (Role × List MsgPart)) (config : GenConfig)
  | savedModel (m : Message)
  | displayedError (message : String)
deriving DecidableEq

/-- The parts list built at lines 637-641: the staged media first, then the
trimmed text when non-empty. -/
def mkParts (text : String) (media : Option Media) : List MsgPart :=
  (match media with
   | some m => [MsgPart.inlineData m.data m.mimeType]
   | none => [])
  ++ (if text == "" then [] else [MsgPart.text text])

/-- The user turn appended at line 647. -/
def mkUserMsg (text : String) (media : Option Media) (now : Nat) : Message :=
  { role := Role.user, parts := mkParts text media, timestamp := now }

/-- The event trace of one `handleSend` invocation.  `inputValue` is the raw
input field value (trimmed at line 621); `media` is the staged attachment;
`now` and `nowDone` are the timestamps taken for the user and model turns;
`outcome` is the backend stream oracle.  The guard of line 622 returns
immediately when the trimmed text is empty and no media is staged. -/
def handleSend (history : List Message) (inputValue : String)
    (media : Option Media) (isDevMode : Bool) (devConfig : DevConfig)
    (outcome : StreamOutcome) (now nowDone : Nat) : List SendEvent :=
  let text := jsTrim inputValue
  if text == "" && media == none then []
  else
    let desc := determineConfig text media.isSome isDevMode devConfig media
    let userMsg := mkUserMsg text media now
    let historyForApi := (history ++ [userMsg]).map fun m => (m.role, m.parts)
    [SendEvent.savedUser userMsg,
     SendEvent.backendCall desc.model historyForApi desc.config]
    ++ match outcome with
       | StreamOutcome.ok chunks =>
           let fullResponseText := chunks.foldl (fun acc c => acc ++ c) ""
           [SendEvent.savedModel
              { role := Role.model
                parts := [MsgPart.text fullResponseText]
                timestamp := nowDone
                mode := some desc.modeLabel }]
       | StreamOutcome.err _ message =>
           [SendEvent.displayedError message]

/-- Replay of one event on the Conversation Store: `saveMessage` appends, the
other events leave the store unchanged. -/
def applyEvent (h : List Message) : SendEvent → List Message
  | SendEvent.savedUser m => h ++ [m]
  | SendEvent.savedModel m => h ++ [m]
  | SendEvent.backendCall _ _ _ => h
  | SendEvent.displayedError _ => h

/-- Replay of an event trace on the Conversation Store. -/
def applyEvents (h : List Message) (evs : List SendEvent) : List Message :=
  evs.foldl applyEvent h

/-- Recognizer for backend submissions in a trace. -/
def isBackendCall : SendEvent → Bool
  | SendEvent.backendCall _ _ _ => true
  | _ => false

/-- Recognizer for appended model turns in a trace. -/
def isSavedModel : SendEvent → Bool
  | SendEvent.savedModel _ => true
  | _ => false

/- ### Helper lemmas -/

/-- Section 1 never sets `maxOutputTokens`. -/
theorem baseDescriptor_maxOutputTokens (t : String) (h d : Bool) (c : DevConfig)
    (m : Option Media) : (baseDescriptor t h d c m).config.maxOutputTokens = none := by
  simp only [baseDescriptor]
  repeat' split
  all_goals rfl

/-- Section 1 never sets `safetySettings`. -/
theorem baseDescriptor_safetySettings (t : String) (h d : Bool) (c : DevConfig)
    (m : Option Media) : (baseDescriptor t h d c m).config.safetySettings = none := by
  simp only [baseDescriptor]
  repeat' split
  all_goals rfl

/-- The developer overrides never touch `thinkingConfig`. -/
theorem applyDevOverrides_thinkingConfig (d : Bool) (dc : DevConfig)
    (r : RequestDescriptor) :
    (applyDevOverrides d dc r).config.thinkingConfig = r.config.thinkingConfig := by
  unfold applyDevOverrides
  split
  · rfl
  · rfl

/-- When the incoming descriptor carries no token cap and the final descriptor
still has a thinking budget, the overrides leave the token cap absent. -/
theorem applyDevOverrides_maxOutputTokens (d : Bool) (dc : DevConfig)
    (r : RequestDescriptor) (hr : r.config.maxOutputTokens = none)
    (hthink : (applyDevOverrides d dc r).config.thinkingConfig ≠ none) :
    (applyDevOverrides d dc r).config.maxOutputTokens = none := by
  cases d with
  | false => exact hr
  | true =>
    have h2 : r.config.thinkingConfig ≠ none := by
      rw [← applyDevOverrides_thinkingConfig true dc r]
      exact hthink
    show (if r.config.thinkingConfig = none then some dc.maxOutputTokens
          else r.config.maxOutputTokens) = none
    rw [if_neg h2]
    exact hr

/- ### Claims about the request configurator -/

/-- C1: for every input combination, if the Request Descriptor produced by
`determineConfig` sets the extended-reasoning budget (`thinkingConfig`), then
its generation config does not set a max-output-tokens cap. -/
theorem thinking_excludes_maxOutputTokens (t : String) (h d : Bool)
    (c : DevConfig) (m : Option Media)
    (hthink : (determineConfig t h d c m).config.thinkingConfig ≠ none) :
    (determineConfig t h d c m).config.maxOutputTokens = none := by
  unfold determineConfig at hthink ⊢
  exact applyDevOverrides_maxOutputTokens d c _
    (baseDescriptor_maxOutputTokens t h d c m) hthink

/-- Witness for C1: on the reasoning-intent text "think hard" in developer
mode the thinking budget is set and the token cap is absent. -/
theorem thinking_excludes_maxOutputTokens_witness :
    (determineConfig "think hard" false true defaultDevConfig none).config.thinkingConfig ≠ none ∧
    (determineConfig "think hard" false true defaultDevConfig none).config.maxOutputTokens = none :=
  ⟨by decide,
   thinking_excludes_maxOutputTokens "think hard" false true defaultDevConfig none (by decide)⟩

/-- C2 counterexample: two invocations of `determineConfig` with identical
(text, hasMedia, isDevMode, devConfig) yield different Request Descriptors
when the staged attachment read from the `currentMedia` global is a video in
one invocation and an image in the other (the mode label differs:
"Video Intelligence" vs "Visual Analysis"), so the descriptor is not a
function of those four inputs alone. -/
theorem determineConfig_not_function_of_four_inputs :
    determineConfig "" true false defaultDevConfig
        (some { data := "d", mimeType := "video/mp4" })
      ≠ determineConfig "" true false defaultDevConfig
        (some { data := "d", mimeType := "image/png" }) := by
  decide

/-- C2 (amended): `determineConfig` is a pure, deterministic function of
(text, media presence, dev-mode flag, dev configuration) together with the
staged attachment's video-vs-image kind: two invocations agreeing on those
yield identical Request Descriptors.  In particular, when no media is staged
(`mediaIsVideo` is false either way) the four original inputs suffice. -/
theorem determineConfig_deterministic (t : String) (h d : Bool) (c : DevConfig)
    (m m' : Option Media) (hm : mediaIsVideo m = mediaIsVideo m') :
    determineConfig t h d c m = determineConfig t h d c m' := by
  unfold determineConfig baseDescriptor
  rw [hm]

/-- Witness for C2 (amended): two distinct image attachments produce the same
descriptor. -/
theorem determineConfig_deterministic_witness :
    mediaIsVideo (some { data := "a", mimeType := "image/png" })
        = mediaIsVideo (some { data := "b", mimeType := "image/jpeg" }) ∧
    determineConfig "hi" true false defaultDevConfig
        (some { data := "a", mimeType := "image/png" })
      = determineConfig "hi" true false defaultDevConfig
        (some { data := "b", mimeType := "image/jpeg" }) :=
  ⟨by decide,
   determineConfig_deterministic "hi" true false defaultDevConfig
     (some { data := "a", mimeType := "image/png" })
     (some { data := "b", mimeType := "image/jpeg" }) (by decide)⟩

/-- C4: with developer mode on, `forceTools` on and all three tool switches
off, the text "search news" with no media yields a Request Descriptor with no
tools attached and no thinking budget, although the text matches the
search-indicative vocabulary. -/
theorem manual_override_suppresses_auto_detection :
    searchIntent "search news" = true ∧
    (determineConfig "search news" false true
        { defaultDevConfig with forceTools := true } none).config.tools = none ∧
    (determineConfig "search news" false true
        { defaultDevConfig with forceTools := true } none).config.thinkingConfig = none := by
  decide

/-- C5: for the text "architect a scalable backend system" with no media and
developer mode off, `determineConfig` selects the high-capability model with
the extended-reasoning budget set and no max-output-tokens field. -/
theorem scenario_architect_deep_thinking :
    (determineConfig "architect a scalable backend system" false false
        defaultDevConfig none).model = "gemini-3-pro-preview" ∧
    (determineConfig "architect a scalable backend system" false false
        defaultDevConfig none).config.thinkingConfig = some { thinkingBudget := 32768 } ∧
    (determineConfig "architect a scalable backend system" false false
        defaultDevConfig none).config.maxOutputTokens = none := by
  decide

/-- C9: whenever the generation config carries safety settings, they are
exactly the four harm categories, each pinned to the configured
`devConfig.safetyThreshold` — in particular all four thresholds are equal. -/
theorem safetySettings_all_same_threshold (t : String) (h d : Bool)
    (c : DevConfig) (m : Option Media) (ss : List SafetySetting)
    (hss : (determineConfig t h d c m).config.safetySettings = some ss) :
    ss = harmCategories.map
        (fun cat => { category := cat, threshold := c.safetyThreshold }) ∧
    ∀ s ∈ ss, s.threshold = c.safetyThreshold := by
  unfold determineConfig applyDevOverrides at hss
  cases d with
  | false =>
    rw [if_neg (by simp)] at hss
    rw [baseDescriptor_safetySettings t h false c m] at hss
    exact absurd hss (by simp)
  | true =>
    rw [if_pos rfl] at hss
    have hss2 : some (harmCategories.map
        (fun cat => ({ category := cat, threshold := c.safetyThreshold } : SafetySetting))) = some ss := hss
    have heq := Option.some.inj hss2
    refine ⟨heq.symm, ?_⟩
    intro s hs
    rw [← heq] at hs
    obtain ⟨cat, _, rfl⟩ := List.mem_map.mp hs
    rfl

/-- Witness for C9: in developer mode with the default configuration the
safety settings are present and uniform. -/
theorem safetySettings_all_same_threshold_witness :
    (determineConfig "" false true defaultDevConfig none).config.safetySettings
        = some (harmCategories.map
            (fun cat => { category := cat, threshold := defaultDevConfig.safetyThreshold })) ∧
    ((harmCategories.map
        (fun cat => ({ category := cat, threshold := defaultDevConfig.safetyThreshold } : SafetySetting)))
      = harmCategories.map
          (fun cat => { category := cat, threshold := defaultDevConfig.safetyThreshold }) ∧
     ∀ s ∈ harmCategories.map
         (fun cat => ({ category := cat, threshold := defaultDevConfig.safetyThreshold } : SafetySetting)),
       s.threshold = defaultDevConfig.safetyThreshold) :=
  ⟨by decide,
   safetySettings_all_same_threshold "" false true defaultDevConfig none _ (by decide)⟩

/- ### Claims about the contextual action suggester -/

/-- C10: for every input, `getContextualActions` returns between one and four
suggestions — it never returns an empty list in any branch. -/
theorem getContextualActions_count (text : String) (hasMedia : Bool)
    (lastMsgRole : Option Role) (cm : Option Media) (lrc : String) :
    1 ≤ (getContextualActions text hasMedia lastMsgRole cm lrc).length ∧
    (getContextualActions text hasMedia lastMsgRole cm lrc).length ≤ 4 := by
  simp only [getContextualActions]
  repeat' split
  all_goals simp_all

/-- C7 counterexample: the text consisting of a fenced code block marker alone
is non-empty and contains the marker, yet the suggestions carry no
"Fix Bugs" entry (the non-empty-text branch looks for the substrings `code`,
`function` and `const `, not for the marker). -/
theorem fixBugs_missing_for_fence_only_text :
    jsIncludes "```" "```" = true ∧
    hasAction "Fix Bugs" (getContextualActions "```" false none none "") = false := by
  decide

/-- C7 (amended): for every non-empty input text containing one of the
code-indicative substrings `code`, `function` or `const ` (no media staged),
`getContextualActions` includes a "Fix Bugs" suggestion; and for empty text
when the prior turn is a model turn whose tracked content is non-empty and
contains a fenced code block marker, it includes a "Refactor" suggestion. -/
theorem code_suggestions (text lrc lrc1 : String) (r : Option Role)
    (cm cm2 : Option Media)
    (ht : 0 < text.length)
    (hcode : (jsIncludes text "code" || jsIncludes text "function"
              || jsIncludes text "const ") = true)
    (hlrc : (lrc != "") = true)
    (hfence : jsIncludes lrc "```" = true) :
    hasAction "Fix Bugs" (getContextualActions text false r cm lrc1) = true ∧
    hasAction "Refactor" (getContextualActions "" false (some Role.model) cm2 lrc) = true := by
  constructor
  · simp [getContextualActions, hasAction, ht, hcode]
  · simp [getContextualActions, hasAction, hlrc, hfence]

/-- Witness for C7 (amended) at text "fix this code" and prior model content
containing a fenced block. -/
theorem code_suggestions_witness :
    0 < ("fix this code" : String).length ∧
    (jsIncludes "fix this code" "code" || jsIncludes "fix this code" "function"
      || jsIncludes "fix this code" "const ") = true ∧
    (("x```y" : String) != "") = true ∧
    jsIncludes "x```y" "```" = true ∧
    (hasAction "Fix Bugs" (getContextualActions "fix this code" false none none "") = true ∧
     hasAction "Refactor" (getContextualActions "" false (some Role.model) none "x```y") = true) :=
  ⟨by decide, by decide, by decide, by decide,
   code_suggestions "fix this code" "x```y" "" none none none
     (by decide) (by decide) (by decide) (by decide)⟩

/- ### Claims about the grounding extractor -/

/-- C6 counterexample: on a metadata list that repeats one web source and
carries one maps source, the rendered cards repeat the web source (count 2,
not at most 1) and every card — including the place-sourced one — carries the
web classification icon, so place-sourced entries are not classified by their
origin. -/
theorem grounding_duplicates_and_misclassifies :
    (extractCards
        [{ web := some { uri := "https://a.example", title := some "A" } },
         { web := some { uri := "https://a.example", title := some "A" } },
         { maps := some { uri := "https://maps.example/b", title := some "B" } }]).count
        { uri := "https://a.example", icon := "public", title := "A" } = 2 ∧
    (extractCards
        [{ web := some { uri := "https://a.example", title := some "A" } },
         { web := some { uri := "https://a.example", title := some "A" } },
         { maps := some { uri := "https://maps.example/b", title := some "B" } }]).all
        (fun card => card.icon == "public") = true := by
  decide

/-- Filtering a list to the elements on which an optional projection is
defined and then filter-mapping that projection is plain filter-mapping. -/
theorem filterMap_filter_isSome {α β : Type} (f : α → Option β) (l : List α) :
    (l.filter fun a => (f a).isSome).filterMap f = l.filterMap f := by
  induction l with
  | nil => rfl
  | cons a as ih =>
    cases hfa : f a with
    | none => simp [List.filter_cons, List.filterMap_cons, hfa, ih]
    | some b => simp [List.filter_cons, List.filterMap_cons, hfa, ih]

/-- Every rendered card carries the web icon. -/
theorem map_renderCard_all_public (l : List Source) :
    (l.map renderCard).all (fun card => card.icon == "public") = true := by
  induction l with
  | nil => rfl
  | cons s ss ih => simp [renderCard, ih]

/-- C6 (amended): the Grounding Extractor outputs one card per sourced entry —
web-sourced entries first, then place-sourced, each partition in first-seen
order with duplicates preserved (no deduplication) — and every card, place-
or web-sourced, is rendered with the web ("public") classification, because
the origin tag is erased before the icon is chosen. -/
theorem extractCards_order_and_classification (chunks : List GroundingChunk) :
    extractCards chunks
      = (chunks.filterMap GroundingChunk.web).map renderCard
        ++ (chunks.filterMap GroundingChunk.maps).map renderCard ∧
    (extractCards chunks).all (fun card => card.icon == "public") = true := by
  constructor
  · simp only [extractCards]
    rw [filterMap_filter_isSome, filterMap_filter_isSome, List.map_append]
  · exact map_renderCard_all_public
      (((chunks.filter fun c => c.web.isSome).filterMap GroundingChunk.web)
        ++ ((chunks.filter fun c => c.maps.isSome).filterMap GroundingChunk.maps))

/-- C8: invoking the Grounding Extractor twice with the same metadata yields
the same rendered source list as invoking it once — the previous grid is fully
replaced, never appended to. -/
theorem renderGroundingSources_idempotent (metadata : List GroundingChunk)
    (grid : Option (List SourceCard)) :
    renderGroundingSources metadata (renderGroundingSources metadata grid)
      = renderGroundingSources metadata grid := rfl

/- ### Claim about the send flow -/

/-- C3: when the guard passes, a failing send first appends and persists the
user turn (`savedUser` is the head of the trace, strictly before the backend
call), issues exactly one backend call (no retry), appends no model turn, and
leaves the Conversation Store as the old history plus the user turn — the
failure does not roll it back. -/
theorem handleSend_failure_keeps_user_turn (history : List Message)
    (inputValue : String) (media : Option Media) (d : Bool) (c : DevConfig)
    (chunks : List String) (e : String) (n n2 : Nat)
    (hguard : (jsTrim inputValue == "" && media == none) = false) :
    handleSend history inputValue media d c (StreamOutcome.err chunks e) n n2
      = [SendEvent.savedUser (mkUserMsg (jsTrim inputValue) media n),
         SendEvent.backendCall
           (determineConfig (jsTrim inputValue) media.isSome d c media).model
           ((history ++ [mkUserMsg (jsTrim inputValue) media n]).map fun m => (m.role, m.parts))
           (determineConfig (jsTrim inputValue) media.isSome d c media).config,
         SendEvent.displayedError e] ∧
    ((handleSend history inputValue media d c (StreamOutcome.err chunks e) n n2).filter
        isBackendCall).length = 1 ∧
    (handleSend history inputValue media d c (StreamOutcome.err chunks e) n n2).all
        (fun ev => !isSavedModel ev) = true ∧
    applyEvents history
        (handleSend history inputValue media d c (StreamOutcome.err chunks e) n n2)
      = history ++ [mkUserMsg (jsTrim inputValue) media n] := by
  have htrace : handleSend history inputValue media d c (StreamOutcome.err chunks e) n n2
      = [SendEvent.savedUser (mkUserMsg (jsTrim inputValue) media n),
         SendEvent.backendCall
           (determineConfig (jsTrim inputValue) media.isSome d c media).model
           ((history ++ [mkUserMsg (jsTrim inputValue) media n]).map fun m => (m.role, m.parts))
           (determineConfig (jsTrim inputValue) media.isSome d c media).config,
         SendEvent.displayedError e] := by
    simp only [handleSend]
    rw [if_neg (by simp [hguard])]
    rfl
  refine ⟨htrace, ?_, ?_, ?_⟩ <;>
    rw [htrace] <;>
    simp [isBackendCall, isSavedModel, applyEvents, applyEvent]

/-- Witness for C3 at a concrete failing send. -/
theorem handleSend_failure_keeps_user_turn_witness :
    ((jsTrim "hi" == "" && (none : Option Media) == none) = false) ∧
    (handleSend [] "hi" none false defaultDevConfig (StreamOutcome.err [] "network error") 1 2
        = [SendEvent.savedUser (mkUserMsg (jsTrim "hi") none 1),
           SendEvent.backendCall
             (determineConfig (jsTrim "hi") (none : Option Media).isSome false defaultDevConfig none).model
             ((([] : List Message) ++ [mkUserMsg (jsTrim "hi") none 1]).map fun m => (m.role, m.parts))
             (determineConfig (jsTrim "hi") (none : Option Media).isSome false defaultDevConfig none).config,
           SendEvent.displayedError "network error"] ∧
      ((handleSend [] "hi" none false defaultDevConfig (StreamOutcome.err [] "network error") 1 2).filter
          isBackendCall).length = 1 ∧
      (handleSend [] "hi" none false defaultDevConfig (StreamOutcome.err [] "network error") 1 2).all
          (fun ev => !isSavedModel ev) = true ∧
      applyEvents []
          (handleSend [] "hi" none false defaultDevConfig (StreamOutcome.err [] "network error") 1 2)
        = [] ++ [mkUserMsg (jsTrim "hi") none 1]) :=
  ⟨by decide,
   handleSend_failure_keeps_user_turn [] "hi" none false defaultDevConfig [] "network error" 1 2
     (by decide)⟩
